import Mathlib

/-!
Shallow embedding of the MP3-to-SID converter's core (`src/mp3_to_sid.py`):
the chip-clock registry, the frequency quantizer `freq_to_sid_value`, the
PSID header writer `write_sid_header`, and the file-producing part of the
conversion pipeline `convert_mp3_to_sid`.

Modelling conventions:
* Python byte strings become `List ℕ` (each element a byte value).
* Python floats become exact rationals `ℚ`; `np.round` (round half to even)
  becomes `roundHalfEven`.  All concrete inputs used in the theorems below
  are exactly representable and far from rounding ties, so the rational
  model agrees with the floating-point evaluation there.
* Writing to a file handle becomes producing the list of bytes written.
-/

namespace SyDthon

/-- Round half to even on rationals, the rounding rule of `np.round`
(banker's rounding), used at `mp3_to_sid.py` line 54. -/
def roundHalfEven (q : ℚ) : ℤ :=
  if q - ⌊q⌋ < 1 / 2 then ⌊q⌋
  else if 1 / 2 < q - ⌊q⌋ then ⌊q⌋ + 1
  else if ⌊q⌋ % 2 = 0 then ⌊q⌋ else ⌊q⌋ + 1

/-- The `SID_CLOCKS` dict (`mp3_to_sid.py` lines 11-14) as a partial map:
clock rates for the two chip revisions. -/
def SID_CLOCKS (chip : String) : Option ℕ :=
  if chip = "6581" then some 985248
  else if chip = "8580" then some 1022730
  else none

/-- The lookup `SID_CLOCKS.get(chip, SID_CLOCKS['6581'])` of
`mp3_to_sid.py` line 52: unknown identifiers fall back to the 6581 entry,
985248. -/
def resolveClock (chip : String) : ℕ :=
  (SID_CLOCKS chip).getD 985248

/-- The quantizer `freq_to_sid_value` (`mp3_to_sid.py` lines 45-55):
zero for non-positive frequencies, otherwise
`int(np.round(freq * (1 << 24) / clock)) & 0xFFFF`. -/
def freq_to_sid_value (freq : ℚ) (chip : String) : ℕ :=
  if freq ≤ 0 then 0
  else (roundHalfEven (freq * 2 ^ 24 / (resolveClock chip : ℚ))).toNat &&& 0xFFFF

/-- Big-endian 16-bit serialization, `struct.pack('>H', v)`.  Faithful for
`v < 2 ^ 16`, which holds at every call site of `write_sid_header`. -/
def pack_be16 (v : ℕ) : List ℕ :=
  [v / 256 % 256, v % 256]

/-- The flags computation of `write_sid_header` (`mp3_to_sid.py` lines
77-81): bit 0 (PAL) for chip '6581', bit 1 (NTSC) for chip '8580'. -/
def sid_flags (chip : String) : ℕ :=
  let flags0 : ℕ := 0
  let flags1 := if chip = "6581" then flags0 ||| 1 else flags0
  if chip = "8580" then flags1 ||| 2 else flags1

/-- ASCII encoding of the header's metadata strings, `text.encode('ascii')`
(`mp3_to_sid.py` line 86); the three texts used are pure ASCII, where the
encoding is the list of code points. -/
def encode_ascii (s : String) : List ℕ :=
  s.data.map Char.toNat

/-- One 32-byte string field of the header (`mp3_to_sid.py` lines 86-87):
`data = text.encode('ascii')[:32]` then `data + b'\x00' * (32 - len(data))`. -/
def pad32 (data : List ℕ) : List ℕ :=
  let d := data.take 32
  d ++ List.replicate (32 - d.length) 0

/-- The bytes written before the three string fields by `write_sid_header`
(`mp3_to_sid.py` lines 62-83): magic, version, data offset, load, init and
play addresses, song count, start song, flags, reserved. -/
def headerFront (song_length : ℕ) (chip : String) : List ℕ :=
  [0x50, 0x53, 0x49, 0x44]
    ++ pack_be16 2
    ++ pack_be16 0x7C
    ++ pack_be16 0x1000
    ++ pack_be16 0x1000
    ++ pack_be16 0x1003
    ++ pack_be16 song_length
    ++ pack_be16 1
    ++ pack_be16 (sid_flags chip)
    ++ [0x00, 0x00]

/-- The three string fields of the header (`mp3_to_sid.py` lines 84-87):
title, author, released, each null-padded to 32 bytes. -/
def headerStrings : List ℕ :=
  pad32 (encode_ascii "MP3->SID Converter")
    ++ pad32 (encode_ascii "Maurizio Ruscio")
    ++ pad32 (encode_ascii "2025")

/-- Every byte `write_sid_header` writes (`mp3_to_sid.py` lines 60-87). -/
def write_sid_header (song_length : ℕ) (chip : String) : List ℕ :=
  headerFront song_length chip ++ headerStrings

/-- The quantized register stream of `convert_mp3_to_sid`
(`mp3_to_sid.py` line 98): `[freq_to_sid_value(freq, chip) for freq in
pitch_track]`. -/
def convertSidValues (pitch_track : List ℚ) (chip : String) : List ℕ :=
  pitch_track.map (fun freq => freq_to_sid_value freq chip)

/-- The bytes `convert_mp3_to_sid` writes to `sid_path`
(`mp3_to_sid.py` lines 100-105): the header only; the driver code and the
register stream are left as a TODO in the source, and the computed
`sid_values` go unused. -/
def convertFileBytes (pitch_track : List ℚ) (chip : String) : List ℕ :=
  let _sid_values := convertSidValues pitch_track chip
  write_sid_header 1 chip

/-! ## Helper lemmas -/

theorem floor_le_roundHalfEven (q : ℚ) : ⌊q⌋ ≤ roundHalfEven q := by
  unfold roundHalfEven
  split_ifs <;> omega

theorem roundHalfEven_le_floor_add_one (q : ℚ) : roundHalfEven q ≤ ⌊q⌋ + 1 := by
  unfold roundHalfEven
  split_ifs <;> omega

theorem roundHalfEven_nonneg {q : ℚ} (h : 0 ≤ q) : 0 ≤ roundHalfEven q :=
  le_trans (Int.floor_nonneg.mpr h) (floor_le_roundHalfEven q)

theorem roundHalfEven_mono {x y : ℚ} (h : x ≤ y) :
    roundHalfEven x ≤ roundHalfEven y := by
  rcases lt_or_le ⌊x⌋ ⌊y⌋ with hlt | hle
  · calc roundHalfEven x ≤ ⌊x⌋ + 1 := roundHalfEven_le_floor_add_one x
      _ ≤ ⌊y⌋ := by omega
      _ ≤ roundHalfEven y := floor_le_roundHalfEven y
  · have heq : ⌊x⌋ = ⌊y⌋ := le_antisymm (Int.floor_le_floor h) hle
    have hr : x - (⌊y⌋ : ℚ) ≤ y - (⌊y⌋ : ℚ) := sub_le_sub_right h _
    unfold roundHalfEven
    rw [heq]
    split_ifs <;> first | omega | linarith

theorem land_ffff (m : ℕ) : m &&& 65535 = m % 65536 := by
  have h := Nat.and_pow_two_sub_one_eq_mod m 16
  norm_num at h
  exact h

theorem resolveClock_6581 : resolveClock "6581" = 985248 := by decide

theorem resolveClock_cast_6581 : ((resolveClock "6581" : ℕ) : ℚ) = 985248 := by
  rw [resolveClock_6581]
  norm_num

theorem freq_eval_440 : freq_to_sid_value 440 "6581" = 7493 := by
  have hfl : ⌊(440 : ℚ) * 2 ^ 24 / ((resolveClock "6581" : ℕ) : ℚ)⌋ = 7492 := by
    rw [resolveClock_cast_6581, Int.floor_eq_iff]
    norm_num
  unfold freq_to_sid_value roundHalfEven
  rw [if_neg (by norm_num), hfl, resolveClock_cast_6581]
  norm_num
  decide

theorem rhe_eval_10000 :
    roundHalfEven ((10000 : ℚ) * 2 ^ 24 / ((resolveClock "6581" : ℕ) : ℚ)) = 170284 := by
  have hfl : ⌊(10000 : ℚ) * 2 ^ 24 / ((resolveClock "6581" : ℕ) : ℚ)⌋ = 170284 := by
    rw [resolveClock_cast_6581, Int.floor_eq_iff]
    norm_num
  unfold roundHalfEven
  rw [hfl, resolveClock_cast_6581]
  norm_num

theorem freq_eval_10000 : freq_to_sid_value 10000 "6581" = 39212 := by
  unfold freq_to_sid_value
  rw [if_neg (by norm_num), rhe_eval_10000]
  decide

theorem rhe_eval_880 :
    roundHalfEven ((880 : ℚ) * 2 ^ 24 / ((resolveClock "6581" : ℕ) : ℚ)) = 14985 := by
  have hfl : ⌊(880 : ℚ) * 2 ^ 24 / ((resolveClock "6581" : ℕ) : ℚ)⌋ = 14985 := by
    rw [resolveClock_cast_6581, Int.floor_eq_iff]
    norm_num
  unfold roundHalfEven
  rw [hfl, resolveClock_cast_6581]
  norm_num

theorem resolveClock_pos (chip : String) : 0 < resolveClock chip := by
  unfold resolveClock SID_CLOCKS
  split_ifs <;> norm_num

theorem headerFront_length (sl : ℕ) (chip : String) :
    (headerFront sl chip).length = 22 := by
  simp [headerFront, pack_be16]

/-! ## Claim theorems -/

/-- Claim C1 (code bug): the spec invariant says the serialized header is
exactly 124 bytes (0x7C) and the 2-byte data-offset field equals that
length.  The code does write 0x7C = 124 into the data-offset field (bytes 6
and 7), but the header it serializes is only 118 bytes long: the PSID v2
speed, startPage and pageLength bytes are missing, contradicting the
comment at `mp3_to_sid.py` line 65 that calls 0x7C the header size. -/
theorem write_sid_header_length_bug :
    (write_sid_header 1 "6581").length = 118 ∧
    ((write_sid_header 1 "6581").drop 6).take 2 = [0x00, 0x7C] ∧
    (0x00 * 256 + 0x7C : ℕ) = 124 ∧
    (118 : ℕ) ≠ 124 := by
  refine ⟨by decide, by decide, by decide, by decide⟩

/-- Claim C2 (code bug): the spec says a successful conversion writes the
header, then the driver code verbatim, then the register stream as 16-bit
little-endian words.  The code computes the register stream but discards
it and writes the header only: the driver code and data region are a TODO
(`mp3_to_sid.py` lines 102-104), while still reporting success. -/
theorem convert_writes_header_only :
    convertFileBytes [440, 880] "6581" = write_sid_header 1 "6581" ∧
    (convertFileBytes [440, 880] "6581").length = 118 := by
  refine ⟨rfl, by decide⟩

/-- Claim C3 (code bug): the spec requires the writer to fail before any
byte reaches the disk when the declared data-offset differs from the
serialized header length, leaving no file behind.  The code performs no
such check: the declared offset 124 never equals the 118 bytes actually
serialized, and `convert_mp3_to_sid` still writes the header to the
destination file unconditionally. -/
theorem convert_no_offset_check :
    ((write_sid_header 1 "6581").drop 6).take 2 = [0x00, 0x7C] ∧
    (write_sid_header 1 "6581").length ≠ 0x7C ∧
    convertFileBytes [440] "6581" = write_sid_header 1 "6581" ∧
    convertFileBytes [440] "6581" ≠ [] := by
  refine ⟨by decide, by decide, rfl, by decide⟩

/-- Claim C4: for every positive frequency and every chip identifier the
quantizer returns the rounded scaled frequency masked to 16 bits, i.e.
`round(f * 2 ^ 24 / clock) % 65536` with round-half-to-even (the rounding
rule of `np.round`); at 440 Hz on the 985248 clock it returns 7493, and at
10000 Hz the rounded value 170284 exceeds 65535 and wraps to 39212 instead
of erroring. -/
theorem freq_to_sid_value_formula (f : ℚ) (chip : String) (h : 0 < f) :
    freq_to_sid_value f chip
      = (roundHalfEven (f * 2 ^ 24 / ((resolveClock chip : ℕ) : ℚ))).toNat % 65536 ∧
    freq_to_sid_value 440 "6581" = 7493 ∧
    65535 < (roundHalfEven ((10000 : ℚ) * 2 ^ 24 / ((resolveClock "6581" : ℕ) : ℚ))).toNat ∧
    freq_to_sid_value 10000 "6581" = 39212 := by
  refine ⟨?_, freq_eval_440, ?_, freq_eval_10000⟩
  · unfold freq_to_sid_value
    rw [if_neg (not_le.mpr h), land_ffff]
  · rw [rhe_eval_10000]
    decide

/-- Witness for C4: the formula and the golden value at 440 Hz, "6581". -/
theorem freq_to_sid_value_formula_witness :
    freq_to_sid_value 440 "6581"
      = (roundHalfEven ((440 : ℚ) * 2 ^ 24 / ((resolveClock "6581" : ℕ) : ℚ))).toNat % 65536 ∧
    freq_to_sid_value 440 "6581" = 7493 :=
  ⟨(freq_to_sid_value_formula 440 "6581" (by norm_num)).1,
   (freq_to_sid_value_formula 440 "6581" (by norm_num)).2.1⟩

/-- Claim C5: every frequency at or below zero quantizes to 0 (silence),
for every chip identifier. -/
theorem freq_to_sid_value_nonpos (f : ℚ) (chip : String) (h : f ≤ 0) :
    freq_to_sid_value f chip = 0 := by
  unfold freq_to_sid_value
  exact if_pos h

/-- Witness for C5: zero and a negative frequency quantize to 0. -/
theorem freq_to_sid_value_nonpos_witness :
    freq_to_sid_value 0 "6581" = 0 ∧ freq_to_sid_value (-5) "8580" = 0 :=
  ⟨freq_to_sid_value_nonpos 0 "6581" (by norm_num),
   freq_to_sid_value_nonpos (-5) "8580" (by norm_num)⟩

/-- Claim C6: an identifier outside the registry resolves, without any
error path, to the default "6581" profile (clock 985248), so quantizing
with an unknown identifier agrees with quantizing with "6581" at every
frequency. -/
theorem unknown_chip_resolves_default (chip : String)
    (h1 : chip ≠ "6581") (h2 : chip ≠ "8580") :
    SID_CLOCKS chip = none ∧
    resolveClock chip = resolveClock "6581" ∧
    ∀ f : ℚ, freq_to_sid_value f chip = freq_to_sid_value f "6581" := by
  have hn : SID_CLOCKS chip = none := by
    unfold SID_CLOCKS
    rw [if_neg h1, if_neg h2]
  have hc : resolveClock chip = resolveClock "6581" := by
    unfold resolveClock
    rw [hn]
    rfl
  refine ⟨hn, hc, fun f => ?_⟩
  unfold freq_to_sid_value
  rw [hc]

/-- Witness for C6: the scenario identifier "unknown123". -/
theorem unknown_chip_resolves_default_witness :
    resolveClock "unknown123" = resolveClock "6581" ∧
    freq_to_sid_value 440 "unknown123" = freq_to_sid_value 440 "6581" :=
  ⟨(unknown_chip_resolves_default "unknown123" (by decide) (by decide)).2.1,
   (unknown_chip_resolves_default "unknown123" (by decide) (by decide)).2.2 440⟩

/-- Claim C7: for frequencies 0 < f1 ≤ f2 below half the resolved clock
whose rounded scaled values stay at or below 65535 (no 16-bit wrap), the
quantizer is monotonically non-decreasing. -/
theorem freq_to_sid_value_mono (chip : String) (f1 f2 : ℚ)
    (h1 : 0 < f1) (h12 : f1 ≤ f2)
    (hhalf : f2 < ((resolveClock chip : ℕ) : ℚ) / 2)
    (hwrap : roundHalfEven (f2 * 2 ^ 24 / ((resolveClock chip : ℕ) : ℚ)) ≤ 65535) :
    freq_to_sid_value f1 chip ≤ freq_to_sid_value f2 chip := by
  have hc : (0 : ℚ) < ((resolveClock chip : ℕ) : ℚ) := by
    exact_mod_cast resolveClock_pos chip
  have harg : f1 * 2 ^ 24 / ((resolveClock chip : ℕ) : ℚ)
      ≤ f2 * 2 ^ 24 / ((resolveClock chip : ℕ) : ℚ) :=
    (div_le_div_iff_of_pos_right hc).mpr
      (mul_le_mul_of_nonneg_right h12 (by norm_num))
  have hm := roundHalfEven_mono harg
  have hn1 : 0 ≤ roundHalfEven (f1 * 2 ^ 24 / ((resolveClock chip : ℕ) : ℚ)) :=
    roundHalfEven_nonneg (by positivity)
  have ht2 : (roundHalfEven (f2 * 2 ^ 24 / ((resolveClock chip : ℕ) : ℚ))).toNat ≤ 65535 := by
    omega
  have ht1 : (roundHalfEven (f1 * 2 ^ 24 / ((resolveClock chip : ℕ) : ℚ))).toNat ≤ 65535 := by
    omega
  unfold freq_to_sid_value
  rw [if_neg (not_le.mpr h1), if_neg (not_le.mpr (lt_of_lt_of_le h1 h12))]
  rw [land_ffff, land_ffff, Nat.mod_eq_of_lt (by omega), Nat.mod_eq_of_lt (by omega)]
  omega

/-- Witness for C7: 440 Hz versus 880 Hz on the "6581" profile. -/
theorem freq_to_sid_value_mono_witness :
    freq_to_sid_value 440 "6581" ≤ freq_to_sid_value 880 "6581" :=
  freq_to_sid_value_mono "6581" 440 880 (by norm_num) (by norm_num)
    (by rw [resolveClock_cast_6581]; norm_num)
    (by rw [rhe_eval_880]; decide)

/-- Claim C8: every string field the header writer produces is exactly 32
bytes, the truncation of the input to 32 bytes followed by null padding:
a 32-byte input keeps all its bytes with zero padding, a 40-byte input is
truncated to its first 32 bytes with no padding, and the empty input
becomes 32 zero bytes. -/
theorem pad32_spec :
    (∀ s : List ℕ, (pad32 s).length = 32) ∧
    (∀ s : List ℕ, pad32 s = s.take 32 ++ List.replicate (32 - (s.take 32).length) 0) ∧
    (∀ s : List ℕ, s.length = 32 → pad32 s = s) ∧
    (∀ s : List ℕ, s.length = 40 → pad32 s = s.take 32 ∧ (s.take 32).length = 32) ∧
    pad32 [] = List.replicate 32 0 := by
  refine ⟨?_, ?_, ?_, ?_, by decide⟩
  · intro s
    simp [pad32]
  · intro s
    simp [pad32]
  · intro s h
    have ht : s.take 32 = s := List.take_of_length_le (by omega)
    simp [pad32, ht, h]
  · intro s h
    have ht : (s.take 32).length = 32 := by
      simp [h]
    exact ⟨by simp [pad32, ht], ht⟩

/-- Claim C9: the header bytes after the 22 fixed-field bytes are the same
for every song count and chip identifier: the three 32-byte fields always
hold the null-padded texts "MP3->SID Converter", "Maurizio Ruscio" and
"2025", independent of any input. -/
theorem header_strings_constant :
    ∀ (sl : ℕ) (chip : String) (sl' : ℕ) (chip' : String),
      (write_sid_header sl chip).drop 22 = headerStrings ∧
      (write_sid_header sl chip).drop 22 = (write_sid_header sl' chip').drop 22 ∧
      headerStrings
        = pad32 (encode_ascii "MP3->SID Converter")
            ++ pad32 (encode_ascii "Maurizio Ruscio")
            ++ pad32 (encode_ascii "2025") := by
  intro sl chip sl' chip'
  refine ⟨?_, ?_, rfl⟩
  · unfold write_sid_header
    exact List.drop_left' (headerFront_length sl chip)
  · unfold write_sid_header
    rw [List.drop_left' (headerFront_length sl chip),
      List.drop_left' (headerFront_length sl' chip')]

/-- Claim C10: the flags field is 1 exactly for chip "6581" (PAL bit 0), 2
exactly for chip "8580" (NTSC bit 1) and 0 for every other identifier,
even though such an identifier still resolves to the 6581 clock 985248 for
quantization; bytes 18 and 19 of the header carry exactly this value. -/
theorem sid_flags_spec :
    ∀ chip : String,
      (chip ≠ "6581" → chip ≠ "8580" →
        sid_flags chip = 0 ∧ resolveClock chip = 985248) ∧
      ((sid_flags chip).testBit 0 = true ↔ chip = "6581") ∧
      ((sid_flags chip).testBit 1 = true ↔ chip = "8580") ∧
      (∀ sl : ℕ, ((write_sid_header sl chip).drop 18).take 2 = pack_be16 (sid_flags chip)) := by
  intro chip
  have hval : sid_flags chip
      = if chip = "6581" then 1 else if chip = "8580" then 2 else 0 := by
    unfold sid_flags
    by_cases hA : chip = "6581"
    · have hB : ¬chip = "8580" := by
        rw [hA]
        decide
      simp [hA, hB]
    · by_cases hB : chip = "8580" <;> simp [hA, hB]
  have hsplit : ∀ sl : ℕ, write_sid_header sl chip
      = ([0x50, 0x53, 0x49, 0x44] ++ pack_be16 2 ++ pack_be16 0x7C ++ pack_be16 0x1000
          ++ pack_be16 0x1000 ++ pack_be16 0x1003 ++ pack_be16 sl ++ pack_be16 1)
        ++ (pack_be16 (sid_flags chip) ++ ([0x00, 0x00] ++ headerStrings)) := by
    intro sl
    simp [write_sid_header, headerFront]
  refine ⟨fun h1 h2 => ⟨by rw [hval, if_neg h1, if_neg h2], ?_⟩, ?_, ?_, ?_⟩
  · unfold resolveClock SID_CLOCKS
    rw [if_neg h1, if_neg h2]
    rfl
  · rw [hval]
    by_cases hA : chip = "6581"
    · rw [if_pos hA]
      exact ⟨fun _ => hA, fun _ => by decide⟩
    · rw [if_neg hA]
      by_cases hB : chip = "8580"
      · rw [if_pos hB]
        exact ⟨fun hx => absurd hx (by decide), fun hx => absurd hx hA⟩
      · rw [if_neg hB]
        exact ⟨fun hx => absurd hx (by decide), fun hx => absurd hx hA⟩
  · rw [hval]
    by_cases hA : chip = "6581"
    · rw [if_pos hA]
      have hB : ¬chip = "8580" := by
        rw [hA]
        decide
      exact ⟨fun hx => absurd hx (by decide), fun hx => absurd hx hB⟩
    · rw [if_neg hA]
      by_cases hB : chip = "8580"
      · rw [if_pos hB]
        exact ⟨fun _ => hB, fun _ => by decide⟩
      · rw [if_neg hB]
        exact ⟨fun hx => absurd hx (by decide), fun hx => absurd hx hB⟩
  · intro sl
    rw [hsplit sl, List.drop_left' (by simp [pack_be16]), List.take_left' (by simp [pack_be16])]

end SyDthon
